import Mathlib

/-!
Shallow embedding of the zyx-mongodb package: the mongoose user schema with
its account-security instance methods, the per-tenant model registry, the
log sink with retention policy, and the database bootstrap.  JavaScript
strings are modelled as lists of characters, timestamps (Date.now values)
as natural numbers of milliseconds, and JavaScript objects as Lean
structures with Option fields for properties that may be undefined.
-/

namespace ZyxMongodb

/-- Character-list model of a JavaScript string. -/
abbrev JStr := List Char

/-! ## Constants of userSchema.js -/

/-- SALT_ROUNDS constant of userSchema.js. -/
def SALT_ROUNDS : Nat := 12

/-- CODE_EXPIRATION_MINUTES constant of userSchema.js. -/
def CODE_EXPIRATION_MINUTES : Nat := 15

/-- MAX_FAILED_ATTEMPTS constant of userSchema.js. -/
def MAX_FAILED_ATTEMPTS : Nat := 5

/-- ACCOUNT_LOCK_DURATION_MS constant of userSchema.js (15 minutes). -/
def ACCOUNT_LOCK_DURATION_MS : Nat := 15 * 60 * 1000

/-! ## Model of the external bcrypt collaborator

The spec treats cryptography as an external capability.  We model bcrypt
hashing as a deterministic injective encoding that marks its output with a
bcrypt version tag, so a hash is never equal to its plaintext input, and
bcrypt.compare as the check that the candidate hashes to the stored value. -/

/-- Marker that every modelled bcrypt hash starts with (version and cost). -/
def bcryptTag : JStr := ['$', '2', 'b', '$', '1', '2', '$']

/-- Model of bcrypt.hash (after bcrypt.genSalt with SALT_ROUNDS). -/
def bcryptHash (plaintext : JStr) : JStr := bcryptTag ++ plaintext

/-- Model of bcrypt.compare: true exactly when the candidate hashes to the stored hash. -/
def bcryptCompare (candidate stored : JStr) : Bool :=
  bcryptHash candidate == stored

/-! ## UserAccount: the security-relevant fields of userSchema -/

/-- Security-relevant fields of a user document (userSchema.js lines 22-94). -/
structure UserAccount where
  email : JStr
  passwordHash : JStr
  isVerified : Bool
  verifyCode : Option JStr
  verifyCodeExpiresAt : Option Nat
  failedLoginAttempts : Nat
  lockUntil : Option Nat
  resetCode : Option JStr
  resetCodeExpiresAt : Option Nat
  lastLoginAt : Option Nat
  deriving Repr, DecidableEq

/-! ## Instance methods of userSchema -/

/-- userSchema.methods.verifyPassword: bcrypt.compare(candidatePassword, this.passwordHash). -/
def verifyPassword (u : UserAccount) (candidatePassword : JStr) : Bool :=
  bcryptCompare candidatePassword u.passwordHash

/-- userSchema.methods.isAccountLocked:
returns !!this.lockUntil && this.lockUntil > Date.now()
(a Date object is truthy, undefined is falsy, so the first conjunct is
lockUntil being present). -/
def isAccountLocked (u : UserAccount) (now : Nat) : Bool :=
  match u.lockUntil with
  | none => false
  | some t => decide (now < t)

/-- userSchema.methods.resetLock: sets failedLoginAttempts to 0 and lockUntil to undefined. -/
def resetLock (u : UserAccount) : UserAccount :=
  { u with failedLoginAttempts := 0, lockUntil := none }

/-- userSchema.methods.incrementLoginAttempts: adds one to failedLoginAttempts
and, when the counter has reached MAX_FAILED_ATTEMPTS, sets lockUntil to
Date.now() + ACCOUNT_LOCK_DURATION_MS. -/
def incrementLoginAttempts (u : UserAccount) (now : Nat) : UserAccount :=
  let u1 := { u with failedLoginAttempts := u.failedLoginAttempts + 1 }
  if MAX_FAILED_ATTEMPTS ≤ u1.failedLoginAttempts then
    { u1 with lockUntil := some (now + ACCOUNT_LOCK_DURATION_MS) }
  else
    u1

/-! ## Verification and reset codes -/

/-- Decimal digit character for a digit d < 10 (character code 48 + d). -/
def digitChar (d : Nat) : Char := Char.ofNat (48 + d)

/-- Decimal rendering of a natural number, most significant digit first
(JavaScript Number toString in the template literal of generateCode). -/
def decimalChars (n : Nat) : JStr :=
  if n = 0 then ['0'] else ((Nat.digits 10 n).map digitChar).reverse

/-- generateCode (userSchema.js lines 16-20): each half is
Math.floor(100 + Math.random() * 900).  The arguments r1 and r2 stand for
the scaled random draws Math.floor(Math.random() * 900), each in [0, 900). -/
def generateCode (r1 r2 : Nat) : Nat × Nat := (100 + r1, 100 + r2)

/-- Rendered code string part1-part2 of the template literal in generateCode. -/
def codeChars (c : Nat × Nat) : JStr :=
  decimalChars c.1 ++ ['-'] ++ decimalChars c.2

/-- Decimal digit test, embedding the character class d of the schema regex. -/
def isDigitChar (c : Char) : Bool := 48 ≤ c.toNat && c.toNat ≤ 57

/-- Boolean embedding of the anchored schema regex: three digits, a hyphen,
three digits (userSchema.js line 61). -/
def matchesCodePattern (s : JStr) : Bool :=
  match s with
  | [a, b, c, h, d, e, f] =>
      isDigitChar a && isDigitChar b && isDigitChar c && h == '-' &&
      isDigitChar d && isDigitChar e && isDigitChar f
  | _ => false

/-- userSchema.methods.generateVerifyCode: stores a fresh code and an expiry
CODE_EXPIRATION_MINUTES from now, returning the code. -/
def generateVerifyCode (u : UserAccount) (now r1 r2 : Nat) : JStr × UserAccount :=
  let code := codeChars (generateCode r1 r2)
  (code, { u with
            verifyCode := some code,
            verifyCodeExpiresAt := some (now + CODE_EXPIRATION_MINUTES * 60 * 1000) })

/-- userSchema.methods.generateResetCode: stores a fresh code and an expiry
CODE_EXPIRATION_MINUTES from now, returning the code. -/
def generateResetCode (u : UserAccount) (now r1 r2 : Nat) : JStr × UserAccount :=
  let code := codeChars (generateCode r1 r2)
  (code, { u with
            resetCode := some code,
            resetCodeExpiresAt := some (now + CODE_EXPIRATION_MINUTES * 60 * 1000) })

/-! ## Password persistence -/

/-- userSchema pre-save hook (userSchema.js lines 155-164): when the stored
passwordHash field was modified since the last save, replace it by its
bcrypt hash; otherwise leave the document untouched. -/
def preSave (u : UserAccount) (passwordHashModified : Bool) : UserAccount :=
  if passwordHashModified then
    { u with passwordHash := bcryptHash u.passwordHash }
  else
    u

/-- Setting the password then saving: the caller assigns the plaintext to
the stored password field, which marks the field modified, and the pre-save
hook then hashes it. -/
def setPasswordAndSave (u : UserAccount) (plaintext : JStr) : UserAccount :=
  preSave { u with passwordHash := plaintext } true

/-! ## Spec-modelled authentication and code consumption

The composite authenticate operation and the consumeVerifyCode and
consumeResetCode operations are described in the spec (sections 4.4 and 8)
but their code is not among the source files; only the building blocks
(verifyPassword, isAccountLocked, resetLock, incrementLoginAttempts) are. -/

/-- Error outcomes of the security flows named by the spec. -/
inductive SecurityError where
  | accountLocked
  | codeExpired
  | codeMismatch
  deriving Repr, DecidableEq

/-- Modelled from the spec: the authenticate operation, absent from the
source files.  It fails immediately with AccountLockedError if currently
Locked; otherwise it verifies the password; on success it resets lockout
counters and updates lastLoginAt; on failure it increments
failedLoginAttempts, which sets lockUntil at the threshold. -/
def authenticate (u : UserAccount) (candidate : JStr) (now : Nat) :
    Except SecurityError Bool × UserAccount :=
  if isAccountLocked u now then
    (.error .accountLocked, u)
  else if verifyPassword u candidate then
    (.ok true, { resetLock u with lastLoginAt := some now })
  else
    (.ok false, incrementLoginAttempts u now)

/-- Modelled from the spec: consumeVerifyCode, absent from the source files.
It succeeds only if the candidate equals the stored code and the current
time is before its expiry; on success the code is cleared (single use) and
the account becomes Verified; it fails with CodeExpiredError past the
expiry and CodeMismatchError on a wrong or absent code. -/
def consumeVerifyCode (u : UserAccount) (candidate : JStr) (now : Nat) :
    Except SecurityError UserAccount :=
  match u.verifyCode, u.verifyCodeExpiresAt with
  | some code, some expiresAt =>
      if expiresAt ≤ now then .error .codeExpired
      else if candidate ≠ code then .error .codeMismatch
      else .ok { u with verifyCode := none, verifyCodeExpiresAt := none, isVerified := true }
  | _, _ => .error .codeMismatch

/-- Modelled from the spec: consumeResetCode, absent from the source files.
Same contract as consumeVerifyCode, on the reset code, without touching the
verification state. -/
def consumeResetCode (u : UserAccount) (candidate : JStr) (now : Nat) :
    Except SecurityError UserAccount :=
  match u.resetCode, u.resetCodeExpiresAt with
  | some code, some expiresAt =>
      if expiresAt ≤ now then .error .codeExpired
      else if candidate ≠ code then .error .codeMismatch
      else .ok { u with resetCode := none, resetCodeExpiresAt := none }
  | _, _ => .error .codeMismatch

/-! ## Sequences of account-security operations -/

/-- State-mutating instance methods of userSchema, as one operation type.
The arguments carry the current time and, for code generation, the scaled
random draws. -/
inductive SecurityOp where
  | opResetLock
  | opIncrementLoginAttempts (now : Nat)
  | opGenerateVerifyCode (now r1 r2 : Nat)
  | opGenerateResetCode (now r1 r2 : Nat)
  | opPreSave (passwordHashModified : Bool)
  deriving Repr, DecidableEq

/-- Effect of one schema operation on the user document. -/
def applyOp (u : UserAccount) : SecurityOp → UserAccount
  | .opResetLock => resetLock u
  | .opIncrementLoginAttempts now => incrementLoginAttempts u now
  | .opGenerateVerifyCode now r1 r2 => (generateVerifyCode u now r1 r2).2
  | .opGenerateResetCode now r1 r2 => (generateResetCode u now r1 r2).2
  | .opPreSave m => preSave u m

/-- Effect of a sequence of schema operations, applied left to right. -/
def applyOps (u : UserAccount) (ops : List SecurityOp) : UserAccount :=
  ops.foldl applyOp u

/-! ## MongoDatabase model registry (mongoDatabase.js) -/

/-- Per-tenant model registry: the models map of MongoDatabase, as an
association list from model name to the compiled model (abstracted as the
identifier of the schema it was compiled from). -/
structure MongoDatabase where
  models : List (String × Nat)
  deriving Repr, DecidableEq

/-- Lookup in the models map (JavaScript property access this.models[name]). -/
def lookupModel (models : List (String × Nat)) (name : String) : Option Nat :=
  match models with
  | [] => none
  | (k, v) :: rest => if k = name then some v else lookupModel rest name

/-- MongoDatabase.registerModel (mongoDatabase.js lines 101-108): throws if
this.models[name] is already set, otherwise compiles the schema on the
tenant connection and stores it under the name. -/
def registerModel (db : MongoDatabase) (name : String) (schema : Nat) :
    Except String MongoDatabase :=
  if (lookupModel db.models name).isSome then
    .error ("Model \"" ++ name ++ "\" already registered for tenant.")
  else
    .ok { models := (name, schema) :: db.models }

/-- MongoDatabase.getModel, delegating to the zyx-base registry lookup.
Modelled from the spec: get(name) returns the RegisteredModel for the name
or absent; the zyx-base BaseDatabase source is not among the files. -/
def getModel (db : MongoDatabase) (name : String) : Option Nat :=
  lookupModel db.models name

/-! ## createLog (createLog.js): log sink with retention policy -/

/-- Retention-relevant fields of the tenant configuration validated by
createLog.  Optional fields model JavaScript properties that may be
undefined. -/
structure LogConfig where
  db_url : String
  log_collection_name : String
  log_expiration_days : Option Nat
  log_capped : Option Bool
  log_max_size : Option Nat
  log_max_docs : Option Nat
  deriving Repr, DecidableEq

/-- Truthiness of an optional boolean (undefined and false are falsy). -/
def optBoolTruthy : Option Bool → Bool
  | none => false
  | some b => b

/-- Truthiness of an optional number (undefined and 0 are falsy). -/
def optNatTruthy : Option Nat → Bool
  | none => false
  | some n => decide (n ≠ 0)

/-- Schema validation performed at the top of createLog (zyx-schema is an
external collaborator; the rulesets are createLog.js lines 29-36): the two
strings are required with length 1 to 255, log_expiration_days when present
must lie in 1 to 365. -/
def validateLogConfig (cfg : LogConfig) : Bool :=
  1 ≤ cfg.db_url.length && cfg.db_url.length ≤ 255 &&
  1 ≤ cfg.log_collection_name.length && cfg.log_collection_name.length ≤ 255 &&
  (match cfg.log_expiration_days with
   | none => true
   | some d => 1 ≤ d && d ≤ 365)

/-- One index of the log collection, with the fields createLog inspects:
its name, its key on the timestamp field, and its TTL value. -/
structure MongoIndex where
  name : String
  keyTimestamp : Option Int
  expireAfterSeconds : Option Nat
  deriving Repr, DecidableEq

/-- Store-side state createLog reads and writes: whether the target
collection exists and the indexes it carries. -/
structure LogDbState where
  collectionExists : Bool
  indexes : List MongoIndex
  deriving Repr, DecidableEq

/-- Store operations createLog can perform, in program order. -/
inductive LogEffect where
  | connect
  | createCappedCollection (sizeBytes maxDocs : Nat)
  | createCollection
  | createTtlIndex (expireAfterSeconds : Nat)
  deriving Repr, DecidableEq

/-- Test used by createLog.js lines 98-100: some index has key.timestamp
equal to 1 and the name timestamp_ttl. -/
def ttlIndexExists (indexes : List MongoIndex) : Bool :=
  indexes.any fun i => i.keyTimestamp == some 1 && i.name == "timestamp_ttl"

/-- TTL index created by createLog.js lines 103-109: keyed on timestamp,
named timestamp_ttl, expiring after the given number of seconds. -/
def ttlIndex (seconds : Nat) : MongoIndex :=
  { name := "timestamp_ttl", keyTimestamp := some 1,
    expireAfterSeconds := some seconds }

/-- createLog (createLog.js lines 27-158), up to the construction of the
winston logger: validates the configuration, rejects capped together with
TTL expiration, connects, creates the collection when missing (capped when
capped with both size and document bounds), and sets up the TTL index
idempotently.  Returns the resulting store state (or the thrown error
message) together with the list of store operations performed. -/
def createLog (cfg : LogConfig) (st : LogDbState) :
    Except String LogDbState × List LogEffect :=
  if !validateLogConfig cfg then
    (.error "validation failed", [])
  else if optBoolTruthy cfg.log_capped && optNatTruthy cfg.log_expiration_days then
    (.error "Cannot use both capped and TTL options on the same collection.", [])
  else
    let createEffects :=
      if !st.collectionExists then
        if optBoolTruthy cfg.log_capped && optNatTruthy cfg.log_max_size &&
            optNatTruthy cfg.log_max_docs then
          [LogEffect.createCappedCollection
            ((cfg.log_max_size.getD 0) * 1024 * 1024) (cfg.log_max_docs.getD 0)]
        else
          [LogEffect.createCollection]
      else
        []
    let st1 : LogDbState := { st with collectionExists := true }
    if !optBoolTruthy cfg.log_capped && optNatTruthy cfg.log_expiration_days &&
        !ttlIndexExists st1.indexes then
      let seconds := (cfg.log_expiration_days.getD 0) * 86400
      (.ok { st1 with indexes := st1.indexes ++ [ttlIndex seconds] },
       LogEffect.connect :: createEffects ++ [LogEffect.createTtlIndex seconds])
    else
      (.ok st1, LogEffect.connect :: createEffects)

/-! ## MongoLog write path (mongoLog.js) -/

/-- MongoLog level methods (mongoLog.js lines 141-175; info is lines
153-157): each awaits _insertLog and only afterwards, when _logToConsole is
set, emits to the console.  _insertLog (lines 114-127) throws when the
collection handle is absent and otherwise performs the store insert, whose
outcome is the storeInsert argument.  The result is the value the caller
of the log call observes (ok, or the raised error) paired with whether the
entry was emitted to the console. -/
def mongoLogWrite (connected : Bool) (storeInsert : Except String Unit)
    (logToConsole : Bool) : Except String Unit × Bool :=
  let insertResult : Except String Unit :=
    if !connected then .error "MongoLog is not connected to the database."
    else storeInsert
  match insertResult with
  | .error e => (.error e, false)
  | .ok _ => (.ok (), logToConsole)

/-! ## createDB (createDB.js): bootstrap and test-mode wipe -/

/-- Store operations createDB performs, in program order. -/
inductive DbEffect where
  | connect
  | dropCollection (name : String)
  | returnConnection
  deriving Repr, DecidableEq

/-- dropAllCollections (createDB.js lines 183-201): iterates the connection
collections and drops each in turn. -/
def dropAllCollections (collections : List String) : List String × List DbEffect :=
  ([], collections.map DbEffect.dropCollection)

/-- createDB after a successful connection (createDB.js lines 218-239):
when system.isTesting is set, all collections are dropped right after the
connection is established and before the connection is returned; otherwise
the collections are left untouched.  Returns the database collections
after the call and the operations performed. -/
def createDB (isTesting : Bool) (collections : List String) :
    List String × List DbEffect :=
  if isTesting then
    let dropped := dropAllCollections collections
    (dropped.1, DbEffect.connect :: dropped.2 ++ [DbEffect.returnConnection])
  else
    (collections, [DbEffect.connect, DbEffect.returnConnection])

/-! ## Sample values used by witnesses -/

/-- Sample user account with no pending codes, no lock and a zero counter. -/
def sampleUser : UserAccount :=
  { email := ['a'], passwordHash := ['p'], isVerified := false,
    verifyCode := none, verifyCodeExpiresAt := none,
    failedLoginAttempts := 0, lockUntil := none,
    resetCode := none, resetCodeExpiresAt := none, lastLoginAt := none }

/-- Sample user account with four failed login attempts and no lock. -/
def sampleUser4 : UserAccount := { sampleUser with failedLoginAttempts := 4 }

/-! ## Claims -/

/-- C1: for every account with failedLoginAttempts equal to 4 and no active
lock, one further incrementLoginAttempts call raises the counter to 5 and
sets lockUntil to the current time plus 15 minutes, and at every instant
from then until lockUntil elapses isAccountLocked returns true and
authenticate fails with AccountLockedError for every password, the correct
one included. -/
theorem C1_fifth_failure_locks_account (u : UserAccount) (now : Nat)
    (hAttempts : u.failedLoginAttempts = 4)
    (_hUnlocked : isAccountLocked u now = false) :
    (incrementLoginAttempts u now).failedLoginAttempts = 5 ∧
    (incrementLoginAttempts u now).lockUntil = some (now + ACCOUNT_LOCK_DURATION_MS) ∧
    ∀ t : Nat, now ≤ t → t < now + ACCOUNT_LOCK_DURATION_MS →
      isAccountLocked (incrementLoginAttempts u now) t = true ∧
      ∀ password : JStr,
        (authenticate (incrementLoginAttempts u now) password t).1 =
          Except.error SecurityError.accountLocked := by
  have hinc : incrementLoginAttempts u now =
      { u with failedLoginAttempts := 5,
               lockUntil := some (now + ACCOUNT_LOCK_DURATION_MS) } := by
    simp [incrementLoginAttempts, hAttempts, MAX_FAILED_ATTEMPTS]
  refine ⟨by rw [hinc], by rw [hinc], ?_⟩
  intro t _ ht2
  have hlock : isAccountLocked (incrementLoginAttempts u now) t = true := by
    rw [hinc]
    simpa [isAccountLocked] using ht2
  refine ⟨hlock, fun password => ?_⟩
  simp [authenticate, hlock]

/-- Witness for C1 at a concrete account, with now = 0 and t = 899999. -/
theorem C1_fifth_failure_locks_account_witness :
    sampleUser4.failedLoginAttempts = 4 ∧
    isAccountLocked sampleUser4 0 = false ∧
    isAccountLocked (incrementLoginAttempts sampleUser4 0) 899999 = true :=
  ⟨rfl, rfl,
    ((C1_fifth_failure_locks_account sampleUser4 0 rfl rfl).2.2
      899999 (by decide) (by decide)).1⟩

/-- C2: after the password is set and the record saved (which hashes the
stored representation), verifyPassword accepts the plaintext, rejects every
other candidate, the stored passwordHash differs from the plaintext, and a
save that did not modify the password field leaves the document, hence the
hash, unchanged. -/
theorem C2_password_set_save_verify (u v : UserAccount) (p q : JStr) (hq : q ≠ p) :
    verifyPassword (setPasswordAndSave u p) p = true ∧
    verifyPassword (setPasswordAndSave u p) q = false ∧
    (setPasswordAndSave u p).passwordHash ≠ p ∧
    preSave v false = v := by
  refine ⟨?_, ?_, ?_, rfl⟩
  · simp [verifyPassword, bcryptCompare, setPasswordAndSave, preSave]
  · have hne : bcryptHash q ≠ bcryptHash p := by
      intro h
      exact hq (List.append_cancel_left h)
    simp only [verifyPassword, bcryptCompare, setPasswordAndSave, preSave, if_pos]
    exact beq_eq_false_iff_ne.mpr hne
  · intro h
    have hl := congrArg List.length h
    simp [setPasswordAndSave, preSave, bcryptHash, bcryptTag] at hl
    omega

/-- Witness for C2 at concrete plaintexts s and w. -/
theorem C2_password_set_save_verify_witness :
    (['w'] : JStr) ≠ ['s'] ∧
    verifyPassword (setPasswordAndSave sampleUser ['s']) ['s'] = true :=
  ⟨by decide, (C2_password_set_save_verify sampleUser sampleUser ['s'] ['w']
      (by decide)).1⟩

/-- C10: when system.isTesting is set, createDB drops every collection of
the target database right after the successful connection and before the
connection is returned, leaving no collection behind; when the flag is
unset, all existing collections are left untouched and no drop happens. -/
theorem C10_testing_drops_all_collections (collections : List String) :
    createDB true collections =
      ([], DbEffect.connect :: collections.map DbEffect.dropCollection ++
            [DbEffect.returnConnection]) ∧
    createDB false collections =
      (collections, [DbEffect.connect, DbEffect.returnConnection]) :=
  ⟨rfl, rfl⟩

/-- C6 (counterexample): at a connected sink with console mirroring enabled
and a failing store insert, the write raises the store error to the caller
and the entry is not emitted to the console, so it is false that a store
failure never raises and that the console mirror happens regardless. -/
theorem C6_store_failure_counterexample :
    ¬((mongoLogWrite true (Except.error "store write failed") true).1 =
        Except.ok () ∧
      (mongoLogWrite true (Except.error "store write failed") true).2 = true) := by
  intro h
  have h1 := h.1
  simp [mongoLogWrite] at h1

/-- C6 (amended): every level method awaits the store insert first, so a
store-insert failure propagates to the caller of the log call and the
console mirror is skipped; the entry reaches the console exactly when the
insert succeeded and console mirroring is enabled, and an unconnected sink
raises its not-connected error without touching the console. -/
theorem C6_store_failure_propagates (msg : String) (logToConsole : Bool) :
    mongoLogWrite true (Except.error msg) logToConsole = (Except.error msg, false) ∧
    mongoLogWrite true (Except.ok ()) logToConsole = (Except.ok (), logToConsole) ∧
    mongoLogWrite false (Except.ok ()) logToConsole =
      (Except.error "MongoLog is not connected to the database.", false) :=
  ⟨rfl, rfl, rfl⟩

/-- C4: on a tenant registry where a name is not yet bound, registering a
model under that name succeeds, a second registerModel call under the same
name fails with the duplicate-model error, and the model registered first
remains retrievable via getModel unchanged. -/
theorem C4_duplicate_register_rejected (db : MongoDatabase) (name : String)
    (s1 s2 : Nat) (hfree : getModel db name = none) :
    ∃ db1, registerModel db name s1 = .ok db1 ∧
      registerModel db1 name s2 =
        .error ("Model \"" ++ name ++ "\" already registered for tenant.") ∧
      getModel db1 name = some s1 := by
  have hfree' : lookupModel db.models name = none := hfree
  refine ⟨{ models := (name, s1) :: db.models }, ?_, ?_, ?_⟩
  · simp [registerModel, hfree']
  · simp [registerModel, lookupModel]
  · simp [getModel, lookupModel]

/-- Witness for C4 on the empty registry with the name user. -/
theorem C4_duplicate_register_rejected_witness :
    getModel { models := [] } "user" = none ∧
    ∃ db1, registerModel { models := [] } "user" 1 = .ok db1 ∧
      registerModel db1 "user" 2 =
        .error ("Model \"" ++ "user" ++ "\" already registered for tenant.") ∧
      getModel db1 "user" = some 1 :=
  ⟨rfl, C4_duplicate_register_rejected { models := [] } "user" 1 2 rfl⟩

/-- C5: for every otherwise valid configuration that supplies both the
capped option and the TTL expiration-days option, createLog throws the
conflicting-retention error and performs no store operation at all, in
particular it neither connects nor creates any collection. -/
theorem C5_conflicting_retention_rejected (cfg : LogConfig) (st : LogDbState)
    (d : Nat) (hvalid : validateLogConfig cfg = true)
    (hcapped : cfg.log_capped = some true)
    (hdays : cfg.log_expiration_days = some d) :
    createLog cfg st =
      (.error "Cannot use both capped and TTL options on the same collection.",
       []) := by
  have hd : 1 ≤ d := by
    simp [validateLogConfig, hdays, Bool.and_eq_true, decide_eq_true_eq] at hvalid
    omega
  have hdTruthy : optNatTruthy cfg.log_expiration_days = true := by
    simp [optNatTruthy, hdays]
    omega
  simp [createLog, hvalid, hcapped, hdTruthy, optBoolTruthy]

/-- Witness for C5 at a concrete capped-plus-TTL configuration. -/
theorem C5_conflicting_retention_rejected_witness :
    validateLogConfig
      { db_url := "m", log_collection_name := "logs",
        log_expiration_days := some 30, log_capped := some true,
        log_max_size := none, log_max_docs := none } = true ∧
    createLog
      { db_url := "m", log_collection_name := "logs",
        log_expiration_days := some 30, log_capped := some true,
        log_max_size := none, log_max_docs := none }
      { collectionExists := false, indexes := [] } =
      (.error "Cannot use both capped and TTL options on the same collection.",
       []) :=
  ⟨by decide,
    C5_conflicting_retention_rejected _ _ 30 (by decide) rfl rfl⟩

/-- C3: with a pending verify code and a pending reset code, each consume
operation succeeds exactly when the candidate equals the stored code and
the current time is strictly before the stored expiry; on success the code
and its expiry are cleared (a repeat attempt fails with mismatch) and the
verify flow sets isVerified; a call at or past the expiry reports
CodeExpiredError and a wrong code before the expiry reports
CodeMismatchError, never a silent no-op. -/
theorem C3_consume_codes (u : UserAccount) (cand : JStr) (now : Nat)
    (vcode rcode : JStr) (vexp rexp : Nat)
    (hvc : u.verifyCode = some vcode) (hve : u.verifyCodeExpiresAt = some vexp)
    (hrc : u.resetCode = some rcode) (hre : u.resetCodeExpiresAt = some rexp) :
    ((∃ u', consumeVerifyCode u cand now = .ok u') ↔ (cand = vcode ∧ now < vexp)) ∧
    (∀ u', consumeVerifyCode u cand now = .ok u' →
        u'.verifyCode = none ∧ u'.verifyCodeExpiresAt = none ∧
        u'.isVerified = true ∧
        ∀ c2 t2, consumeVerifyCode u' c2 t2 = .error .codeMismatch) ∧
    (vexp ≤ now → consumeVerifyCode u cand now = .error .codeExpired) ∧
    (now < vexp → cand ≠ vcode →
        consumeVerifyCode u cand now = .error .codeMismatch) ∧
    ((∃ u', consumeResetCode u cand now = .ok u') ↔ (cand = rcode ∧ now < rexp)) ∧
    (∀ u', consumeResetCode u cand now = .ok u' →
        u'.resetCode = none ∧ u'.resetCodeExpiresAt = none ∧
        ∀ c2 t2, consumeResetCode u' c2 t2 = .error .codeMismatch) ∧
    (rexp ≤ now → consumeResetCode u cand now = .error .codeExpired) ∧
    (now < rexp → cand ≠ rcode →
        consumeResetCode u cand now = .error .codeMismatch) := by
  have hv : consumeVerifyCode u cand now =
      (if vexp ≤ now then Except.error SecurityError.codeExpired
       else if cand ≠ vcode then Except.error SecurityError.codeMismatch
       else Except.ok { u with verifyCode := none, verifyCodeExpiresAt := none,
                               isVerified := true }) := by
    simp only [consumeVerifyCode, hvc, hve]
  have hr : consumeResetCode u cand now =
      (if rexp ≤ now then Except.error SecurityError.codeExpired
       else if cand ≠ rcode then Except.error SecurityError.codeMismatch
       else Except.ok { u with resetCode := none, resetCodeExpiresAt := none }) := by
    simp only [consumeResetCode, hrc, hre]
  refine ⟨?_, ?_, ?_, ?_, ?_, ?_, ?_, ?_⟩
  · rw [hv]
    constructor
    · rintro ⟨u', hu'⟩
      by_cases h1 : vexp ≤ now
      · rw [if_pos h1] at hu'; simp at hu'
      · rw [if_neg h1] at hu'
        by_cases h2 : cand = vcode
        · exact ⟨h2, by omega⟩
        · rw [if_pos h2] at hu'; simp at hu'
    · rintro ⟨rfl, hlt⟩
      rw [if_neg (by omega), if_neg (by simp)]
      exact ⟨_, rfl⟩
  · intro u' hu'
    rw [hv] at hu'
    by_cases h1 : vexp ≤ now
    · rw [if_pos h1] at hu'; simp at hu'
    · rw [if_neg h1] at hu'
      by_cases h2 : cand = vcode
      · rw [if_neg (not_not_intro h2)] at hu'
        simp only [Except.ok.injEq] at hu'
        subst hu'
        exact ⟨rfl, rfl, rfl, fun c2 t2 => rfl⟩
      · rw [if_pos h2] at hu'; simp at hu'
  · intro h1
    rw [hv, if_pos h1]
  · intro h1 h2
    rw [hv, if_neg (by omega), if_pos h2]
  · rw [hr]
    constructor
    · rintro ⟨u', hu'⟩
      by_cases h1 : rexp ≤ now
      · rw [if_pos h1] at hu'; simp at hu'
      · rw [if_neg h1] at hu'
        by_cases h2 : cand = rcode
        · exact ⟨h2, by omega⟩
        · rw [if_pos h2] at hu'; simp at hu'
    · rintro ⟨rfl, hlt⟩
      rw [if_neg (by omega), if_neg (by simp)]
      exact ⟨_, rfl⟩
  · intro u' hu'
    rw [hr] at hu'
    by_cases h1 : rexp ≤ now
    · rw [if_pos h1] at hu'; simp at hu'
    · rw [if_neg h1] at hu'
      by_cases h2 : cand = rcode
      · rw [if_neg (not_not_intro h2)] at hu'
        simp only [Except.ok.injEq] at hu'
        subst hu'
        exact ⟨rfl, rfl, fun c2 t2 => rfl⟩
      · rw [if_pos h2] at hu'; simp at hu'
  · intro h1
    rw [hr, if_pos h1]
  · intro h1 h2
    rw [hr, if_neg (by omega), if_pos h2]

/-- Witness for C3 on an account holding pending codes 111-222 and 333-444
that expire at time 1000, consumed at time 5. -/
theorem C3_consume_codes_witness :
    ∃ u', consumeVerifyCode
      { sampleUser with
          verifyCode := some ['1', '1', '1', '-', '2', '2', '2'],
          verifyCodeExpiresAt := some 1000,
          resetCode := some ['3', '3', '3', '-', '4', '4', '4'],
          resetCodeExpiresAt := some 1000 }
      ['1', '1', '1', '-', '2', '2', '2'] 5 = .ok u' :=
  ((C3_consume_codes _ ['1', '1', '1', '-', '2', '2', '2'] 5
      ['1', '1', '1', '-', '2', '2', '2'] ['3', '3', '3', '-', '4', '4', '4']
      1000 1000 rfl rfl rfl rfl).1).mpr ⟨rfl, by omega⟩

/-- Helper: every schema operation other than resetLock leaves the
failed-attempt counter at least as large as before. -/
theorem applyOp_attempts_le (u : UserAccount) (op : SecurityOp)
    (h : op ≠ SecurityOp.opResetLock) :
    u.failedLoginAttempts ≤ (applyOp u op).failedLoginAttempts := by
  cases op with
  | opResetLock => exact absurd rfl h
  | opIncrementLoginAttempts now =>
      simp only [applyOp, incrementLoginAttempts]
      split <;> simp
  | opGenerateVerifyCode now r1 r2 => simp [applyOp, generateVerifyCode]
  | opGenerateResetCode now r1 r2 => simp [applyOp, generateResetCode]
  | opPreSave m =>
      simp only [applyOp, preSave]
      split <;> simp

/-- Helper: over a whole sequence free of resetLock, the failed-attempt
counter never decreases. -/
theorem applyOps_attempts_le (ops : List SecurityOp) :
    ∀ u : UserAccount, SecurityOp.opResetLock ∉ ops →
      u.failedLoginAttempts ≤ (applyOps u ops).failedLoginAttempts := by
  induction ops with
  | nil => intro u _; exact le_refl _
  | cons op rest ih =>
      intro u hnr
      have hop : op ≠ SecurityOp.opResetLock := fun h => hnr (by simp [h])
      exact le_trans (applyOp_attempts_le u op hop)
        (ih (applyOp u op) (fun hmem => hnr (List.mem_cons_of_mem _ hmem)))

/-- C7: across every sequence of schema operations that contains no
resetLock, failedLoginAttempts never decreases; incrementLoginAttempts (the
failed-password event) raises it by exactly one; and resetLock sets it to
zero and clears lockUntil. -/
theorem C7_attempts_monotone (u : UserAccount) (ops : List SecurityOp)
    (hnr : SecurityOp.opResetLock ∉ ops) :
    u.failedLoginAttempts ≤ (applyOps u ops).failedLoginAttempts ∧
    (∀ v : UserAccount, ∀ now : Nat,
      (incrementLoginAttempts v now).failedLoginAttempts =
        v.failedLoginAttempts + 1) ∧
    (∀ v : UserAccount,
      (resetLock v).failedLoginAttempts = 0 ∧ (resetLock v).lockUntil = none) := by
  refine ⟨applyOps_attempts_le ops u hnr, ?_, fun v => ⟨rfl, rfl⟩⟩
  intro v now
  simp only [incrementLoginAttempts]
  split <;> rfl

/-- Witness for C7 on a two-operation sequence without resetLock. -/
theorem C7_attempts_monotone_witness :
    SecurityOp.opResetLock ∉
      [SecurityOp.opIncrementLoginAttempts 0,
       SecurityOp.opGenerateVerifyCode 0 0 0] ∧
    sampleUser.failedLoginAttempts ≤
      (applyOps sampleUser
        [SecurityOp.opIncrementLoginAttempts 0,
         SecurityOp.opGenerateVerifyCode 0 0 0]).failedLoginAttempts :=
  ⟨by decide, (C7_attempts_monotone sampleUser _ (by decide)).1⟩

/-- Helper: the decimal rendering of a number between 100 and 999 is its
three digits, most significant first. -/
theorem decimalChars_three_digits (n : Nat) (h1 : 100 ≤ n) (h2 : n ≤ 999) :
    decimalChars n =
      [digitChar (n / 100), digitChar (n / 10 % 10), digitChar (n % 10)] := by
  have hn : n ≠ 0 := by omega
  have hten : 0 < n / 10 := by omega
  rw [decimalChars, if_neg hn]
  rw [Nat.digits_def' (by norm_num : (1:Nat) < 10) (by omega : 0 < n)]
  rw [Nat.digits_def' (by norm_num : (1:Nat) < 10) hten]
  rw [Nat.div_div_eq_div_mul]
  rw [Nat.digits_of_lt 10 (n / 100) (by omega) (by omega)]
  simp

/-- Helper: digitChar of a digit below ten is a decimal digit character. -/
theorem isDigitChar_digitChar (d : Nat) (h : d < 10) :
    isDigitChar (digitChar d) = true := by
  interval_cases d <;> decide

/-- Helper: the rendered code of two halves between 100 and 999 matches the
anchored schema regex of three digits, a hyphen and three digits. -/
theorem matchesCodePattern_codeChars (p1 p2 : Nat)
    (h1a : 100 ≤ p1) (h1b : p1 ≤ 999) (h2a : 100 ≤ p2) (h2b : p2 ≤ 999) :
    matchesCodePattern (codeChars (p1, p2)) = true := by
  rw [codeChars]
  simp only
  rw [decimalChars_three_digits p1 h1a h1b, decimalChars_three_digits p2 h2a h2b]
  simp only [List.cons_append, List.nil_append, matchesCodePattern]
  simp only [Bool.and_eq_true, beq_self_eq_true, and_true, true_and]
  repeat' apply And.intro
  all_goals (apply isDigitChar_digitChar; omega)

/-- C8: every generated code has two halves in the range 100 to 999 and its
rendering matches the DDD-DDD pattern; generateVerifyCode and
generateResetCode store exactly that code with expiry the current time plus
15 minutes, overwriting whatever code and expiry of that kind the account
held before. -/
theorem C8_generated_codes_well_formed (u : UserAccount) (now r1 r2 : Nat)
    (h1 : r1 < 900) (h2 : r2 < 900) :
    100 ≤ (generateCode r1 r2).1 ∧ (generateCode r1 r2).1 ≤ 999 ∧
    100 ≤ (generateCode r1 r2).2 ∧ (generateCode r1 r2).2 ≤ 999 ∧
    matchesCodePattern (codeChars (generateCode r1 r2)) = true ∧
    (generateVerifyCode u now r1 r2).1 = codeChars (generateCode r1 r2) ∧
    (generateVerifyCode u now r1 r2).2.verifyCode =
      some (codeChars (generateCode r1 r2)) ∧
    (generateVerifyCode u now r1 r2).2.verifyCodeExpiresAt =
      some (now + CODE_EXPIRATION_MINUTES * 60 * 1000) ∧
    (generateResetCode u now r1 r2).1 = codeChars (generateCode r1 r2) ∧
    (generateResetCode u now r1 r2).2.resetCode =
      some (codeChars (generateCode r1 r2)) ∧
    (generateResetCode u now r1 r2).2.resetCodeExpiresAt =
      some (now + CODE_EXPIRATION_MINUTES * 60 * 1000) := by
  refine ⟨by simp [generateCode], by simp [generateCode]; omega,
          by simp [generateCode], by simp [generateCode]; omega,
          ?_, rfl, rfl, rfl, rfl, rfl, rfl⟩
  exact matchesCodePattern_codeChars (100 + r1) (100 + r2)
    (by omega) (by omega) (by omega) (by omega)

/-- Witness for C8 at draws 0 and 899, so the halves are 100 and 999. -/
theorem C8_generated_codes_well_formed_witness :
    (0:Nat) < 900 ∧ (899:Nat) < 900 ∧
    matchesCodePattern (codeChars (generateCode 0 899)) = true :=
  ⟨by decide, by decide,
    (C8_generated_codes_well_formed sampleUser 0 0 899
      (by decide) (by decide)).2.2.2.2.1⟩

/-- Helper: after appending the TTL index, the existence test used by
createLog succeeds. -/
theorem ttlIndexExists_append_ttl (l : List MongoIndex) (s : Nat) :
    ttlIndexExists (l ++ [ttlIndex s]) = true := by
  simp [ttlIndexExists, ttlIndex, List.any_append]

/-- C9: with TTL retention requested and the capped option not set, the index
setup of createLog is idempotent: when an index keyed on the timestamp field
with the TTL name already exists it is skipped and no index-creation
operation happens; otherwise a TTL index with expireAfterSeconds equal to
the retention days times 86400 is created; and a second createLog run on the
state the first produced leaves the index state unchanged. -/
theorem C9_ttl_index_setup_idempotent (cfg : LogConfig) (st : LogDbState) (d : Nat)
    (hvalid : validateLogConfig cfg = true)
    (hNotCapped : optBoolTruthy cfg.log_capped = false)
    (hdays : cfg.log_expiration_days = some d) :
    (ttlIndexExists st.indexes = true →
      (createLog cfg st).1 = .ok { st with collectionExists := true } ∧
      ∀ s, LogEffect.createTtlIndex s ∉ (createLog cfg st).2) ∧
    (ttlIndexExists st.indexes = false →
      (createLog cfg st).1 = .ok { collectionExists := true,
                                   indexes := st.indexes ++ [ttlIndex (d * 86400)] } ∧
      LogEffect.createTtlIndex (d * 86400) ∈ (createLog cfg st).2) ∧
    (∀ st1, (createLog cfg st).1 = .ok st1 →
      ∀ st2, (createLog cfg st1).1 = .ok st2 → st2.indexes = st1.indexes) := by
  have hd1 : 1 ≤ d := by
    simp [validateLogConfig, hdays, Bool.and_eq_true, decide_eq_true_eq] at hvalid
    omega
  have hdT : optNatTruthy (some d) = true := by
    simp [optNatTruthy]
    omega
  have hrun : ∀ s : LogDbState,
      createLog cfg s =
        (if ttlIndexExists s.indexes then
          (Except.ok { s with collectionExists := true },
           LogEffect.connect ::
             (if s.collectionExists then [] else [LogEffect.createCollection]))
         else
          (Except.ok { collectionExists := true,
                       indexes := s.indexes ++ [ttlIndex (d * 86400)] },
           LogEffect.connect ::
             (if s.collectionExists then [] else [LogEffect.createCollection]) ++
             [LogEffect.createTtlIndex (d * 86400)])) := by
    intro s
    by_cases hEx : ttlIndexExists s.indexes <;>
      by_cases hce : s.collectionExists <;>
        simp [createLog, hvalid, hNotCapped, hdays, hdT, hEx, hce]
  refine ⟨?_, ?_, ?_⟩
  · intro hEx
    rw [hrun st, if_pos hEx]
    refine ⟨rfl, fun s => ?_⟩
    by_cases hce : st.collectionExists <;> simp [hce]
  · intro hEx
    rw [hrun st, if_neg (by simp [hEx])]
    refine ⟨rfl, ?_⟩
    by_cases hce : st.collectionExists <;> simp [hce]
  · intro st1 h1 st2 h2
    by_cases hEx : ttlIndexExists st.indexes
    · rw [hrun st, if_pos hEx] at h1
      simp only [Except.ok.injEq] at h1
      subst h1
      rw [hrun _, if_pos hEx] at h2
      simp only [Except.ok.injEq] at h2
      subst h2
      rfl
    · rw [hrun st, if_neg hEx] at h1
      simp only [Except.ok.injEq] at h1
      subst h1
      rw [hrun _, if_pos (ttlIndexExists_append_ttl st.indexes (d * 86400))] at h2
      simp only [Except.ok.injEq] at h2
      subst h2
      rfl

/-- Witness for C9 at a concrete TTL configuration on a store with no
collection and no indexes. -/
theorem C9_ttl_index_setup_idempotent_witness :
    ttlIndexExists ([] : List MongoIndex) = false ∧
    (createLog
      { db_url := "m", log_collection_name := "logs",
        log_expiration_days := some 30, log_capped := none,
        log_max_size := none, log_max_docs := none }
      { collectionExists := false, indexes := [] }).1 =
      .ok { collectionExists := true,
            indexes := ([] : List MongoIndex) ++ [ttlIndex (30 * 86400)] } :=
  ⟨rfl,
    ((C9_ttl_index_setup_idempotent
      { db_url := "m", log_collection_name := "logs",
        log_expiration_days := some 30, log_capped := none,
        log_max_size := none, log_max_docs := none }
      { collectionExists := false, indexes := [] } 30
      (by decide) rfl rfl).2.1 rfl).1⟩

end ZyxMongodb
